import Mathlib

/-!
# Recognition Orchestration subsystem of QEnPlayer — shallow embedding

This file embeds the Recognition Orchestration subsystem of the repository
(`src/src/speechrecognizer.cpp`, class `SpeechRecognizer`) into Lean 4 and
proves/refutes the frozen claims about it.

Modelling conventions:
* Qt signals (`recognitionError`, `recognitionFinished`, `recognitionProgress`),
  subprocess spawns, network posts and file removals are recorded as an ordered
  `Event` trace.
* `QString` becomes `String`; an empty `QString` is `""`.
* The member state of `SpeechRecognizer` becomes the record `RecState`;
  the file system (which files exist) is the `disk` field, a list of paths.
* Outcomes of the outside world (subprocess start/run results, whisper results,
  decoded samples) are an `Env` record fixed for a run; float sample payloads
  are opaque to every claim, so a sample is modelled as `Int`.
* Asynchronous pieces (the `QThread` worker) are sequenced after the call that
  spawns them (`runFileRecognition`, `runVideoRecognition`): the claims under
  study are about the events of the completed run, not about interleavings.
-/

namespace QEnPlayer

/-- One JSON value, the image of Qt's `QJsonValue`. -/
inductive Json where
  | str (s : String)
  | num (n : Int)
  | jbool (b : Bool)
  | null
  | arr (elems : List Json)
  | obj (fields : List (String × Json))
deriving Repr, BEq, Inhabited

/-- `QJsonValue::toString()`: the string itself for string values, the null
string (here `""`) for every non-string value. -/
def jsonToString : Json → String
  | .str s => s
  | _ => ""

/-- `QJsonObject::contains`/`operator[]` pair: the value stored under key `k`,
if present (first binding wins; a `QJsonObject` has no duplicate keys). -/
def jsonLookup (fields : List (String × Json)) (k : String) : Option Json :=
  (fields.find? (fun kv => kv.1 == k)).map (fun kv => kv.2)

/-- Observable actions of the orchestrator, in emission order. -/
inductive Event where
  /-- `emit recognitionError(msg)` -/
  | error (msg : String)
  /-- `emit recognitionFinished(text)` -/
  | finished (text : String)
  /-- `emit recognitionProgress(pct)` -/
  | progress (pct : Nat)
  /-- `m_networkManager->post(...)` to the configured endpoint -/
  | remotePost (url : String)
  /-- entry into the local backend path `recognizeWithWhisper` -/
  | localAttempt
  /-- the native `whisper_full` inference call is invoked -/
  | whisperRun
  /-- the extraction `ffmpeg` subprocess is spawned (`QProcess::start`,
      speechrecognizer.cpp:997) -/
  | extractRun
  /-- `QFile::remove(path)` -/
  | removeFile (path : String)
deriving Repr, DecidableEq

/-- Outcomes supplied by the world outside the orchestrator, fixed per run. -/
structure Env where
  /-- `QFileInfo::isReadable` for a given path -/
  fileReadable : String → Bool
  /-- milliseconds `ffmpeg -version` takes to start (probe, line 690) -/
  probeStartMillis : Nat
  /-- milliseconds the probe takes to finish after starting -/
  probeRunMillis : Nat
  /-- exit code of the probe process -/
  probeExitCode : Int
  /-- whether the probe stdout contains the substring "ffmpeg version" -/
  probeHasVersionInfo : Bool
  /-- extraction `ffmpeg` starts within `waitForStarted(5000)` (line 1003) -/
  extractStartOk : Bool
  /-- extraction run exceeds the 60000 ms bound (line 1023); then it is killed -/
  extractTimedOut : Bool
  /-- exit code of the extraction process (line 1050) -/
  extractExitCode : Int
  /-- the extraction run leaves the output file on disk (checked line 1066) -/
  extractCreatesFile : Bool
  /-- number of output chunks read during extraction; each emits progress 25 -/
  extractChunkCount : Nat
  /-- output directory already exists (line 961) -/
  outputDirExists : Bool
  /-- `mkpath` succeeds when the directory is missing (line 963) -/
  outputDirCreateOk : Bool
  /-- output directory is readable (line 975) -/
  outputDirReadable : Bool
  /-- decoding `ffmpeg` of `loadAudioFile` starts within 2000 ms (line 527) -/
  loadStartOk : Bool
  /-- the 30 s read loop of `loadAudioFile` times out (line 555) -/
  loadTimedOut : Bool
  /-- exit code of the decoding process (line 562) -/
  loadExitCode : Int
  /-- float samples decoded by `loadAudioFile` (payload opaque, byte data with
      `numSamples = bytes / 4`; empty data and zero samples both map to `[]`) -/
  loadedSamples : List Int
  /-- `whisper_full` returns 0 (lines 368, 1129) -/
  whisperFullOk : Bool
  /-- `whisper_full_get_segment_text` per segment index; `none` models a null
      pointer (checked only on the direct path, line 383) -/
  segments : List (Option String)
  /-- `QDateTime::currentMSecsSinceEpoch()` used in temp names (line 951) -/
  nowMillis : Nat

/-- Member state of `SpeechRecognizer`, plus the file system (`disk`). -/
structure RecState where
  /-- `m_isRecognizing` -/
  isRecognizing : Bool
  /-- `m_shouldStop` -/
  shouldStop : Bool
  /-- `m_currentAudioFile` -/
  currentAudioFile : String
  /-- `m_tempAudioFile` -/
  tempAudioFile : String
  /-- `m_audioSamples` -/
  audioSamples : List Int
  /-- `m_whisperCtx != nullptr` (the opaque model handle is loaded) -/
  whisperCtx : Bool
  /-- `m_language` -/
  language : String
  /-- `m_modelSize` -/
  modelSize : String
  /-- `m_apiUrl` -/
  apiUrl : String
  /-- `m_preferOnlineAPI` -/
  preferOnlineAPI : Bool
  /-- `m_networkManager != nullptr` -/
  networkManager : Bool
  /-- `m_recognitionThread` spawned and not yet run -/
  threadActive : Bool
  /-- the set of files existing on disk, as a list of paths -/
  disk : List String
deriving Repr, DecidableEq

/-- `QFile::remove p` on the modelled disk: afterwards `p` does not exist. -/
def diskRemove (d : List String) (p : String) : List String :=
  d.filter (fun q => q != p)

/-- `QProcess::waitForStarted()` called with no argument (line 692) waits with
Qt's default timeout of 30000 ms. -/
def probeStartTimeoutMillis : Nat := 30000

/-- `waitForFinished(2000)` of the version probe (line 705). -/
def probeFinishTimeoutMillis : Nat := 2000

/-- `SpeechRecognizer::isFfmpegAvailable` (lines 684-731): spawn
`ffmpeg -version`; unavailable when the process fails to start within the
(default 30 s) start timeout, when it does not finish within 2000 ms (then it
is killed), when its exit code is non-zero, or when its stdout lacks
"ffmpeg version". -/
def isFfmpegAvailable (env : Env) : Bool :=
  if !(env.probeStartMillis ≤ probeStartTimeoutMillis : Bool) then false
  else if !(env.probeRunMillis ≤ probeFinishTimeoutMillis : Bool) then false
  else (env.probeExitCode == 0) && env.probeHasVersionInfo

/-- `SpeechRecognizer::isLocalWhisperAvailable` (lines 674-677). -/
def isLocalWhisperAvailable (st : RecState) : Bool :=
  st.whisperCtx

/-- Result-collection loop of `recognizeAudioAsync` (lines 381-389): for each
segment index `i`, when the text pointer is non-null the text is appended,
followed by one space when `i < n_segments - 1` (i.e. the segment is not the
last one); null texts contribute nothing. -/
def joinSegmentsSpace : List (Option String) → String
  | [] => ""
  | [seg] => (match seg with | some t => t | none => "")
  | seg :: rest =>
      (match seg with | some t => t ++ " " | none => "") ++ joinSegmentsSpace rest

/-- Result-collection loop of `extractAudioFromVideo` (lines 1139-1144): every
segment text is appended and then a newline is appended, for all segments
including the last; this loop performs no null check (a null pointer there
would be undefined in C++; it is modelled as `""`). -/
def joinSegmentsNewline (segs : List (Option String)) : String :=
  segs.foldl (fun acc seg => acc ++ seg.getD "" ++ "\n") ""

/-- The spec's words for the direct-path join rule: "the segments joined with
exactly one separating space" (spec §4.2, §8). Stated from the spec, to be
compared with `joinSegmentsSpace`. -/
def specSpaceJoin : List String → String
  | [] => ""
  | [s] => s
  | s :: rest => s ++ " " ++ specSpaceJoin rest

/-- The spec's words for the extraction-path join rule: "joined with a single
separating newline" (claim C6) — newline between elements only. Stated from the
spec, to be compared with `joinSegmentsNewline`. -/
def specNewlineJoin : List String → String
  | [] => ""
  | [s] => s
  | s :: rest => s ++ "\n" ++ specNewlineJoin rest

/-- Temp path built by `recognizeFromVideo` (lines 443-444):
`QDir::tempPath() + separator + baseName(video) + "_temp.wav"`. The path-string
mechanics (temp dir, base-name extraction) are opaque to every claim and are
modelled as a fixed injective-enough string construction. -/
def tempVideoWavPath (videoFilePath : String) : String :=
  "/tmp/" ++ videoFilePath ++ "_temp.wav"

/-- Temp path built inside `extractAudioFromVideo` when the caller passed an
empty output path (lines 946-952), with a millisecond-clock suffix. -/
def tempExtractPath (env : Env) (videoFilePath : String) : String :=
  "/tmp/" ++ videoFilePath ++ "_temp_" ++ toString env.nowMillis ++ ".wav"

/-- `SpeechRecognizer::loadAudioFile` (lines 494-595): decode `audioFilePath`
to 16 kHz mono float samples through an `ffmpeg` pipe. Fails (`none`) when the
file does not exist, the decoder does not start within 2000 ms, the 30 s read
loop times out (process killed), the exit code is non-zero, or no samples are
produced (empty data / zero samples). On success the sample buffer is returned. -/
def loadAudioFile (env : Env) (disk : List String) (audioFilePath : String) :
    Option (List Int) :=
  if !disk.contains audioFilePath then none
  else if !env.loadStartOk then none
  else if env.loadTimedOut then none
  else if env.loadExitCode != 0 then none
  else if env.loadedSamples.isEmpty then none
  else some env.loadedSamples

/-- `SpeechRecognizer::cleanup` (lines 597-672): tear down the worker thread
(setting `m_shouldStop` while it is live), remove `m_currentAudioFile` from
disk and clear it when it is a non-empty existing path, likewise
`m_tempAudioFile`, clear the sample buffer and reset `m_isRecognizing` and
`m_shouldStop`. The whisper context and the network manager are deliberately
not released here. Returns the new state and the file-removal events. -/
def cleanup (st : RecState) : RecState × List Event :=
  let st1 := if st.threadActive then
      { st with shouldStop := true, threadActive := false } else st
  let r2 : RecState × List Event :=
    if st1.currentAudioFile != "" && st1.disk.contains st1.currentAudioFile then
      ({ st1 with disk := diskRemove st1.disk st1.currentAudioFile,
                  currentAudioFile := "" },
       [Event.removeFile st1.currentAudioFile])
    else (st1, [])
  let st2 := r2.1
  let r3 : RecState × List Event :=
    if st2.tempAudioFile != "" && st2.disk.contains st2.tempAudioFile then
      ({ st2 with disk := diskRemove st2.disk st2.tempAudioFile,
                  tempAudioFile := "" },
       [Event.removeFile st2.tempAudioFile])
    else (st2, [])
  ({ r3.1 with audioSamples := [], isRecognizing := false, shouldStop := false },
   r2.2 ++ r3.2)

/-- `SpeechRecognizer::recognizeWithOnlineAPI` (lines 886-910): silently
returns false when the network manager is missing, the path is empty or the
file does not exist; otherwise posts the JSON request to `m_apiUrl` and emits
progress 10. Note: it does not set `m_isRecognizing`. -/
def recognizeWithOnlineAPI (st : RecState) (audioFilePath : String) :
    RecState × List Event × Bool :=
  if !st.networkManager || audioFilePath == "" || !st.disk.contains audioFilePath then
    (st, [], false)
  else
    (st, [Event.remotePost st.apiUrl, Event.progress 10], true)

/-- `SpeechRecognizer::recognizeWithWhisper` (lines 828-884): the local
backend path. Rejects when ffmpeg is unavailable or the whisper context is not
loaded; clears `m_audioSamples`, loads the audio file into it, rejects on load
failure or an empty buffer; otherwise marks recognition in flight, resets the
stop flag and spawns the worker thread. `Event.localAttempt` marks entry into
this local path. -/
def recognizeWithWhisper (env : Env) (st : RecState) (audioFilePath : String) :
    RecState × List Event × Bool :=
  if !isFfmpegAvailable env then
    (st, [Event.localAttempt,
          Event.error "FFmpeg不可用，无法提取音频。请安装FFmpeg并确保其在系统PATH中。"], false)
  else if !isLocalWhisperAvailable st then
    (st, [Event.localAttempt,
          Event.error "Whisper模型不可用，请检查模型路径和初始化"], false)
  else
    let st1 := { st with audioSamples := [] }
    match loadAudioFile env st1.disk audioFilePath with
    | none =>
        (st1, [Event.localAttempt,
               Event.error ("加载音频文件失败: " ++ audioFilePath)], false)
    | some samples =>
        let st2 := { st1 with audioSamples := samples }
        if st2.audioSamples.isEmpty then
          (st2, [Event.localAttempt,
                 Event.error "音频样本为空，无法进行识别"], false)
        else
          ({ st2 with isRecognizing := true, shouldStop := false,
                      threadActive := true },
           [Event.localAttempt], true)

/-- `SpeechRecognizer::recognizeAudioAsync` (lines 330-398): the body run by
the worker thread. Declines (error signal) when the whisper context is null or
the sample buffer is empty — these are its only pre-start checks; it never
reads `m_shouldStop`. Otherwise it invokes `whisper_full`; on failure an error
is emitted, on success the space-joined segments are emitted as
`recognitionFinished` and `m_isRecognizing` is reset (only on success). -/
def recognizeAudioAsync (env : Env) (st : RecState) : RecState × List Event :=
  if !st.whisperCtx || st.audioSamples.isEmpty then
    (st, [Event.error "Whisper上下文未初始化或没有音频数据。"])
  else if !env.whisperFullOk then
    (st, [Event.whisperRun, Event.error "Whisper处理音频失败。"])
  else
    ({ st with isRecognizing := false },
     [Event.whisperRun, Event.finished (joinSegmentsSpace env.segments)])

/-- `SpeechRecognizer::extractAudioFromVideo` (lines 912-1159): check input
existence/readability and the decoder probe, resolve the output path, check the
output directory, spawn the extraction `ffmpeg` with bounded start (5 s) and
run (60 s, kill on expiry) waits, check the exit code and the output file —
then, inline in the same call, load the extracted audio, run `whisper_full`
and emit `recognitionFinished` with the newline-joined segments. Returns
(state, events, success, resolved output path). -/
def extractAudioFromVideo (env : Env) (st : RecState)
    (videoFilePath audioOutputPath : String) :
    RecState × List Event × Bool × String :=
  if !st.disk.contains videoFilePath then
    (st, [Event.error ("视频文件不存在: " ++ videoFilePath)], false, audioOutputPath)
  else if !env.fileReadable videoFilePath then
    (st, [Event.error ("视频文件不可读: " ++ videoFilePath)], false, audioOutputPath)
  else if !isFfmpegAvailable env then
    (st, [Event.error "FFmpeg未安装或不可用，请确保FFmpeg已安装并在系统PATH中"],
     false, audioOutputPath)
  else
    let outPath := if audioOutputPath == "" then tempExtractPath env videoFilePath
                   else audioOutputPath
    if !env.outputDirExists && !env.outputDirCreateOk then
      (st, [Event.error "无法创建输出目录"], false, outPath)
    else if !env.outputDirReadable then
      (st, [Event.error "输出目录不可访问"], false, outPath)
    else if !env.extractStartOk then
      (st, [Event.extractRun, Event.error "无法启动ffmpeg进程或启动超时(5秒)"],
       false, outPath)
    else
      let evs0 := [Event.extractRun, Event.progress 0]
      if env.extractTimedOut then
        (st, evs0 ++ [Event.error "音频提取超时(60秒)"], false, outPath)
      else
        let evs1 := evs0 ++ List.replicate env.extractChunkCount (Event.progress 25)
        if env.extractExitCode != 0 then
          (st, evs1 ++ [Event.error "音频提取失败，ffmpeg退出码非零"], false, outPath)
        else
          let disk1 := if env.extractCreatesFile then outPath :: st.disk else st.disk
          let st1 := { st with disk := disk1 }
          if !disk1.contains outPath then
            (st1, evs1 ++ [Event.error ("音频提取失败，输出文件不存在: " ++ outPath)],
             false, outPath)
          else
            let evs2 := evs1 ++ [Event.progress 50]
            match loadAudioFile env st1.disk outPath with
            | none =>
                (st1, evs2 ++ [Event.error ("无法加载提取的音频文件: " ++ outPath)],
                 false, outPath)
            | some _ =>
                if !st1.whisperCtx then
                  (st1, evs2 ++ [Event.error "Whisper上下文未初始化，请检查模型路径"],
                   false, outPath)
                else
                  let evs3 := evs2 ++ [Event.progress 75, Event.whisperRun]
                  if !env.whisperFullOk then
                    (st1, evs3 ++ [Event.error "Whisper处理音频失败，请检查模型和音频质量"],
                     false, outPath)
                  else
                    (st1, evs3 ++ [Event.progress 100,
                                   Event.finished (joinSegmentsNewline env.segments)],
                     true, outPath)

/-- `SpeechRecognizer::recognizeFile` (lines 296-328): the file entry point.
Rejects with "Already recognizing audio." while a recognition is in flight;
rejects a missing file; records `m_currentAudioFile`; then dispatches per
backend preference: online when preferred and configured, else local when the
whisper context is loaded, else online when configured, else a final error. -/
def recognizeFile (env : Env) (st : RecState) (audioFilePath : String) :
    RecState × List Event × Bool :=
  if st.isRecognizing then
    (st, [Event.error "Already recognizing audio."], false)
  else if !st.disk.contains audioFilePath then
    (st, [Event.error ("Audio file not found: " ++ audioFilePath)], false)
  else
    let st1 := { st with currentAudioFile := audioFilePath }
    if st1.preferOnlineAPI && st1.apiUrl != "" then
      recognizeWithOnlineAPI st1 audioFilePath
    else if isLocalWhisperAvailable st1 then
      recognizeWithWhisper env st1 audioFilePath
    else if st1.apiUrl != "" then
      recognizeWithOnlineAPI st1 audioFilePath
    else
      (st1, [Event.error "Neither local Whisper nor online API available."], false)

/-- `SpeechRecognizer::recognizeFromVideo` (lines 400-465): the video entry
point. Rejects an empty or missing path, an unavailable decoder, and a null
whisper context — in that order, all before any extraction; note there is no
in-flight (`m_isRecognizing`) check here. Resolves a temp output path
(recording it in `m_tempAudioFile`) when the caller supplied none, extracts
(which also recognizes inline), calls `cleanup` on extraction failure, and
otherwise forwards to `recognizeFile` on the extracted audio. -/
def recognizeFromVideo (env : Env) (st : RecState)
    (videoFilePath audioOutputPath : String) : RecState × List Event × Bool :=
  if videoFilePath == "" then
    (st, [Event.error "视频文件路径为空"], false)
  else if !st.disk.contains videoFilePath then
    (st, [Event.error ("视频文件不存在: " ++ videoFilePath)], false)
  else if !isFfmpegAvailable env then
    (st, [Event.error "FFmpeg不可用，无法执行语音识别"], false)
  else if !st.whisperCtx then
    (st, [Event.error "Whisper上下文未初始化，请检查模型路径"], false)
  else
    let useTempFile := audioOutputPath == ""
    let audioPath := if useTempFile then tempVideoWavPath videoFilePath
                     else audioOutputPath
    let st1 := if useTempFile then { st with tempAudioFile := audioPath } else st
    let r := extractAudioFromVideo env st1 videoFilePath audioPath
    if !r.2.2.1 then
      let c := cleanup r.1
      (c.1, r.2.1 ++ c.2, false)
    else
      let r2 := recognizeFile env r.1 audioPath
      (r2.1, r.2.1 ++ r2.2.1, r2.2.2)

/-- `SpeechRecognizer::stop` (lines 467-492): while recognizing, set the stop
flag, wait for the worker (≤3 s) and force `m_isRecognizing` to false; then
(the legacy whisper `QProcess` is never created on these paths) run `cleanup`. -/
def stop (st : RecState) : RecState × List Event :=
  let st1 := if st.isRecognizing then
      { st with shouldStop := true, isRecognizing := false } else st
  cleanup st1

/-- A reply of the remote transcription service as seen by the handler. -/
structure NetReply where
  /-- `reply->error() == QNetworkReply::NoError` -/
  netOk : Bool
  /-- `reply->errorString()` -/
  errorString : String
  /-- the body parsed by `QJsonDocument::fromJson`: `some j` when it is valid
      JSON, `none` on a `QJsonParseError` -/
  body : Option Json

/-- `SpeechRecognizer::handleOnlineAPIReply` (lines 754-826): on a null reply,
error plus cleanup. On transport success: a top-level object with a "text" key
yields `toString` of that value as the transcript; else a "result" key that is
an array yields the elements' `toString`s concatenated with no separator, a
"result" string yields itself, any other "result" value is a format error; an
object with neither key, and a non-object or unparseable body, are parse
errors; all these branches then run `cleanup`. On transport failure: an error
is emitted and, exactly when the online API was preferred, the local model is
loaded and a current audio file is recorded, one local fallback
(`recognizeWithWhisper`) is started and `cleanup` is skipped. -/
def handleOnlineAPIReply (env : Env) (st : RecState) (reply : Option NetReply) :
    RecState × List Event :=
  match reply with
  | none =>
      let c := cleanup st
      (c.1, Event.error "无效的API响应" :: c.2)
  | some reply =>
      if reply.netOk then
        let evs : List Event :=
          match reply.body with
          | some (Json.obj fields) =>
              match jsonLookup fields "text" with
              | some v => [Event.progress 100, Event.finished (jsonToString v)]
              | none =>
                  match jsonLookup fields "result" with
                  | some (Json.arr elems) =>
                      [Event.progress 100,
                       Event.finished (String.join (elems.map jsonToString))]
                  | some (Json.str s) =>
                      [Event.progress 100, Event.finished s]
                  | some _ => [Event.error "无法解析API响应格式"]
                  | none => [Event.error "API响应中未找到识别结果"]
          | _ => [Event.error "解析API响应失败"]
        let c := cleanup st
        (c.1, evs ++ c.2)
      else
        let errEv := Event.error ("API请求失败: " ++ reply.errorString)
        if st.preferOnlineAPI && isLocalWhisperAvailable st
            && st.currentAudioFile != "" then
          let r := recognizeWithWhisper env st st.currentAudioFile
          (r.1, errEv :: r.2.1)
        else
          let c := cleanup st
          (c.1, errEv :: c.2)

/-- A complete file recognition: the `recognizeFile` call followed, when a
worker thread was spawned, by the worker body `recognizeAudioAsync`. -/
def runFileRecognition (env : Env) (st : RecState) (audioFilePath : String) :
    RecState × List Event × Bool :=
  let r := recognizeFile env st audioFilePath
  if r.1.threadActive then
    let w := recognizeAudioAsync env r.1
    ({ w.1 with threadActive := false }, r.2.1 ++ w.2, r.2.2)
  else r

/-- A complete video recognition: the `recognizeFromVideo` call followed, when
a worker thread was spawned, by the worker body `recognizeAudioAsync`. -/
def runVideoRecognition (env : Env) (st : RecState)
    (videoFilePath audioOutputPath : String) : RecState × List Event :=
  let r := recognizeFromVideo env st videoFilePath audioOutputPath
  if r.1.threadActive then
    let w := recognizeAudioAsync env r.1
    ({ w.1 with threadActive := false }, r.2.1 ++ w.2)
  else (r.1, r.2.1)

/-- Is the event a `recognitionFinished` emission? -/
def isFinishedEvent : Event → Bool
  | .finished _ => true
  | _ => false

/-- Is the event a `recognitionError` emission? -/
def isErrorEvent : Event → Bool
  | .error _ => true
  | _ => false

/-- Number of `recognitionFinished` emissions in a trace. -/
def countFinished (evs : List Event) : Nat :=
  evs.countP (fun e => isFinishedEvent e)

/-- Number of `recognitionError` emissions in a trace. -/
def countErrors (evs : List Event) : Nat :=
  evs.countP (fun e => isErrorEvent e)

/-- Number of terminal emissions (result or error) in a trace. -/
def countTerminal (evs : List Event) : Nat :=
  evs.countP (fun e => isFinishedEvent e || isErrorEvent e)

/-- Number of local-backend attempts (entries into `recognizeWithWhisper`). -/
def countLocalAttempts (evs : List Event) : Nat :=
  evs.countP (fun e => e == Event.localAttempt)

/-- Is the event a network post to the remote backend? -/
def isRemotePostEvent : Event → Bool
  | .remotePost _ => true
  | _ => false

/-- Number of remote-backend invocations (network posts) in a trace. -/
def countRemotePosts (evs : List Event) : Nat :=
  evs.countP (fun e => isRemotePostEvent e)

/-- The amended extraction-path join rule: every segment is followed by a
newline (terminator style), so a non-empty transcript carries a trailing
newline. -/
def specNewlineTerminatedJoin : List String → String
  | [] => ""
  | s :: rest => s ++ "\n" ++ specNewlineTerminatedJoin rest

/-- A world in which every external step succeeds: the probe starts in 100 ms
and runs 100 ms with exit 0 and version output, extraction starts, finishes in
time with exit 0 and creates its output, decoding yields one sample, and
`whisper_full` succeeds with the two segments "hello" and "world". -/
def envOk : Env where
  fileReadable := fun _ => true
  probeStartMillis := 100
  probeRunMillis := 100
  probeExitCode := 0
  probeHasVersionInfo := true
  extractStartOk := true
  extractTimedOut := false
  extractExitCode := 0
  extractCreatesFile := true
  extractChunkCount := 0
  outputDirExists := true
  outputDirCreateOk := true
  outputDirReadable := true
  loadStartOk := true
  loadTimedOut := false
  loadExitCode := 0
  loadedSamples := [1]
  whisperFullOk := true
  segments := [some "hello", some "world"]
  nowMillis := 0

/-- An idle orchestrator with a loaded model, a configured endpoint, local
backend preferred, and one video file "v.mp4" on disk. -/
def stIdle : RecState where
  isRecognizing := false
  shouldStop := false
  currentAudioFile := ""
  tempAudioFile := ""
  audioSamples := []
  whisperCtx := true
  language := "auto"
  modelSize := "small"
  apiUrl := "https://api.example.com/asr"
  preferOnlineAPI := false
  networkManager := true
  threadActive := false
  disk := ["v.mp4"]

/- ## Helper lemmas -/

theorem mem_diskRemove_iff (d : List String) (p q : String) :
    q ∈ diskRemove d p ↔ q ∈ d ∧ q ≠ p := by
  simp [diskRemove, List.mem_filter]

theorem tempVideoWavPath_ne_empty (v : String) : tempVideoWavPath v ≠ "" := by
  intro h
  have hlen : (tempVideoWavPath v).length = 0 := by rw [h]; rfl
  rw [tempVideoWavPath, String.length_append, String.length_append] at hlen
  have h1 : ("/tmp/" : String).length = 5 := rfl
  have h2 : ("_temp.wav" : String).length = 9 := rfl
  omega

/-- Every trace of `recognizeWithWhisper` starts with the `localAttempt`
marker, contains it exactly once, and contains no remote post. -/
theorem recognizeWithWhisper_trace_facts (env : Env) (st : RecState) (p : String) :
    (recognizeWithWhisper env st p).2.1.head? = some Event.localAttempt ∧
    countLocalAttempts (recognizeWithWhisper env st p).2.1 = 1 ∧
    countRemotePosts (recognizeWithWhisper env st p).2.1 = 0 := by
  simp only [recognizeWithWhisper]
  split
  · simp [countLocalAttempts, countRemotePosts, isRemotePostEvent]
  · split
    · simp [countLocalAttempts, countRemotePosts, isRemotePostEvent]
    · split
      · simp [countLocalAttempts, countRemotePosts, isRemotePostEvent]
      · split
        · simp [countLocalAttempts, countRemotePosts, isRemotePostEvent]
        · simp [countLocalAttempts, countRemotePosts, isRemotePostEvent]

/-- The worker body never posts to the remote backend. -/
theorem recognizeAudioAsync_no_remote (env : Env) (st : RecState) :
    countRemotePosts (recognizeAudioAsync env st).2 = 0 := by
  simp only [recognizeAudioAsync]
  split
  · simp [countRemotePosts, isRemotePostEvent]
  · split <;> simp [countRemotePosts, isRemotePostEvent]

/-- The cleanup trace consists of file removals only: no local attempt, no
remote post, no terminal event. -/
theorem cleanup_trace_facts (st : RecState) :
    countLocalAttempts (cleanup st).2 = 0 ∧
    countRemotePosts (cleanup st).2 = 0 ∧
    countTerminal (cleanup st).2 = 0 := by
  simp only [cleanup]
  split <;>
    · split
      · split <;>
          simp [countLocalAttempts, countRemotePosts, countTerminal,
                isRemotePostEvent, isFinishedEvent, isErrorEvent]
      · split <;>
          simp [countLocalAttempts, countRemotePosts, countTerminal,
                isRemotePostEvent, isFinishedEvent, isErrorEvent]

/-- After `cleanup`, `m_tempAudioFile`'s former value is not on disk (when it
named a file, it was removed), and neither is `m_currentAudioFile`'s. -/
theorem cleanup_removes_files (st : RecState) :
    (st.tempAudioFile ≠ "" → st.tempAudioFile ∉ (cleanup st).1.disk) ∧
    (st.currentAudioFile ≠ "" → st.currentAudioFile ∉ (cleanup st).1.disk) := by
  simp only [cleanup]
  split <;>
    · constructor
      · intro _
        split
        · next hcur =>
            split
            · next htmp =>
                simp_all [mem_diskRemove_iff]
            · next htmp =>
                simp_all [mem_diskRemove_iff, List.elem_iff]

        · next hcur =>
            split
            · next htmp =>
                simp_all [mem_diskRemove_iff]
            · next htmp =>
                simp_all [List.elem_iff]
      · intro h
        split
        · next hcur =>
            split
            · next htmp =>
                simp_all [mem_diskRemove_iff]
            · next htmp =>
                simp_all [mem_diskRemove_iff]
        · next hcur =>
            simp only [Bool.and_eq_true, bne_iff_ne, ne_eq,
              List.elem_iff, decide_eq_true_eq, not_and] at hcur
            split <;> simp_all [mem_diskRemove_iff]

theorem map_jsonToString_str (ss : List String) :
    List.map (jsonToString ∘ Json.str) ss = ss := by
  induction ss with
  | nil => rfl
  | cons a t ih => simpa [jsonToString, Function.comp] using ih

theorem countRemotePosts_append (l1 l2 : List Event) :
    countRemotePosts (l1 ++ l2) = countRemotePosts l1 + countRemotePosts l2 := by
  simp [countRemotePosts, List.countP_append]

theorem countLocalAttempts_append (l1 l2 : List Event) :
    countLocalAttempts (l1 ++ l2) = countLocalAttempts l1 + countLocalAttempts l2 := by
  simp [countLocalAttempts, List.countP_append]

/-- `extractAudioFromVideo` spawns the extraction subprocess as soon as the
input exists and is readable, the probe succeeds and the output directory is
usable — regardless of `m_isRecognizing`. -/
theorem extractAudioFromVideo_spawns (env : Env) (st : RecState) (v p : String)
    (hd : st.disk.contains v = true) (hr : env.fileReadable v = true)
    (hff : isFfmpegAvailable env = true) (hde : env.outputDirExists = true)
    (hdr : env.outputDirReadable = true) :
    Event.extractRun ∈ (extractAudioFromVideo env st v p).2.1 := by
  simp only [extractAudioFromVideo, hd, hr, hff, hde, hdr, Bool.not_true,
    Bool.false_and, Bool.true_and, Bool.false_eq_true, if_false]
  repeat' split
  all_goals simp [List.mem_append]

theorem joinSpace_eq_specSpaceJoin : ∀ ss : List String,
    joinSegmentsSpace (ss.map some) = specSpaceJoin ss
  | [] => rfl
  | [_] => rfl
  | s :: r :: rs => by
      have ih := joinSpace_eq_specSpaceJoin (r :: rs)
      show s ++ " " ++ joinSegmentsSpace ((r :: rs).map some)
          = s ++ " " ++ specSpaceJoin (r :: rs)
      rw [ih]

theorem joinNl_foldl : ∀ (ss : List String) (acc : String),
    (ss.map some).foldl (fun a seg => a ++ seg.getD "" ++ "\n") acc
      = acc ++ specNewlineTerminatedJoin ss
  | [], acc => by simp [specNewlineTerminatedJoin, String.append_empty]
  | s :: rest, acc => by
      have ih := joinNl_foldl rest (acc ++ s ++ "\n")
      simp only [List.map, List.foldl, Option.getD_some] at ih ⊢
      rw [ih, specNewlineTerminatedJoin]
      simp [String.append_assoc]

theorem joinSegmentsNewline_eq (ss : List String) :
    joinSegmentsNewline (ss.map some) = specNewlineTerminatedJoin ss := by
  have h := joinNl_foldl ss ""
  simpa [joinSegmentsNewline] using h

/- ## Claims -/

/-- C3 (confirmed): with the local backend preferred (`preferOnlineBackend`
false), the model loaded and the remote endpoint configured, a recognition
started from Idle on an existing file enters the local backend first (the
very first trace event is the local attempt) and never invokes the remote
backend — not even after a local failure. -/
theorem C3_local_preferred_no_remote (env : Env) (st : RecState) (p : String)
    (hpref : st.preferOnlineAPI = false) (hctx : st.whisperCtx = true)
    (_hurl : st.apiUrl ≠ "") (hidle : st.isRecognizing = false)
    (hdisk : st.disk.contains p = true) :
    (runFileRecognition env st p).2.1.head? = some Event.localAttempt ∧
    countRemotePosts (runFileRecognition env st p).2.1 = 0 := by
  obtain ⟨hhead, _hone, hnone⟩ :=
    recognizeWithWhisper_trace_facts env { st with currentAudioFile := p } p
  have hmem : p ∈ st.disk := List.elem_iff.mp hdisk
  have key : recognizeFile env st p
      = recognizeWithWhisper env { st with currentAudioFile := p } p := by
    simp [recognizeFile, hidle, hmem, hpref, isLocalWhisperAvailable, hctx]
  simp only [runFileRecognition, key]
  split
  · rcases hsplit :
        (recognizeWithWhisper env { st with currentAudioFile := p } p).2.1 with _ | ⟨a, t⟩
    · rw [hsplit] at hhead
      simp at hhead
    · rw [hsplit] at hhead hnone
      simp only [List.head?_cons, Option.some.injEq] at hhead
      subst hhead
      refine ⟨by simp, ?_⟩
      rw [countRemotePosts_append, hnone, recognizeAudioAsync_no_remote]
  · exact ⟨hhead, hnone⟩

/-- C3 (witness): the local-first policy on the idle state with the local
backend preferred and the endpoint configured. -/
theorem C3_local_preferred_no_remote_witness :
    (runFileRecognition envOk stIdle "v.mp4").2.1.head? = some Event.localAttempt ∧
    countRemotePosts (runFileRecognition envOk stIdle "v.mp4").2.1 = 0 :=
  C3_local_preferred_no_remote envOk stIdle "v.mp4" rfl rfl (by decide) rfl (by decide)

/-- C4 (counterexample): a transport-successful remote reply with an
unrecognized top-level shape (an object with only a "foo" key) yields one
error and *zero* local fallback attempts even though the local backend is
available — the claim requires exactly one. -/
theorem C4_parse_error_no_fallback :
    isLocalWhisperAvailable
      { stIdle with currentAudioFile := "a.wav", preferOnlineAPI := true } = true ∧
    countLocalAttempts
      (handleOnlineAPIReply envOk
        { stIdle with currentAudioFile := "a.wav", preferOnlineAPI := true }
        (some ⟨true, "", some (Json.obj [("foo", Json.str "bar")])⟩)).2 = 0 ∧
    countErrors
      (handleOnlineAPIReply envOk
        { stIdle with currentAudioFile := "a.wav", preferOnlineAPI := true }
        (some ⟨true, "", some (Json.obj [("foo", Json.str "bar")])⟩)).2 = 1 := by
  exact ⟨rfl, by decide, by decide⟩

/-- C4 (amended): a transport-successful reply — malformed shape included —
never triggers a local fallback (zero attempts); the single local fallback
attempt (exactly one, never two) occurs only on a transport-level failure when
the online API was preferred, the local model is loaded and a current audio
file is recorded. -/
theorem C4_fallback_policy :
    (∀ (env : Env) (st : RecState) (r : NetReply), r.netOk = true →
       countLocalAttempts (handleOnlineAPIReply env st (some r)).2 = 0) ∧
    (∀ (env : Env) (st : RecState) (r : NetReply), r.netOk = false →
       st.preferOnlineAPI = true → st.whisperCtx = true →
       st.currentAudioFile ≠ "" →
       countLocalAttempts (handleOnlineAPIReply env st (some r)).2 = 1) := by
  constructor
  · intro env st r h
    simp only [handleOnlineAPIReply, h, if_true]
    rw [countLocalAttempts_append, (cleanup_trace_facts st).1]
    repeat' split
    all_goals simp [countLocalAttempts]
  · intro env st r h hpref hctx hcur
    have hfacts := recognizeWithWhisper_trace_facts env st st.currentAudioFile
    simp only [handleOnlineAPIReply, h, Bool.false_eq_true, if_false]
    rw [if_pos (by simp [hpref, isLocalWhisperAvailable, hctx, hcur])]
    have h1 := hfacts.2.1
    simp only [countLocalAttempts, List.countP_cons] at h1 ⊢
    simpa using h1

/-- C4 (witness): zero fallbacks on a malformed transport-successful reply;
exactly one local fallback on a transport failure with the online API
preferred and the local model available. -/
theorem C4_fallback_policy_witness :
    countLocalAttempts
      (handleOnlineAPIReply envOk stIdle
        (some ⟨true, "", some (Json.obj [("foo", Json.str "bar")])⟩)).2 = 0 ∧
    countLocalAttempts
      (handleOnlineAPIReply envOk
        { stIdle with currentAudioFile := "a.wav", preferOnlineAPI := true }
        (some ⟨false, "timeout", none⟩)).2 = 1 :=
  ⟨C4_fallback_policy.1 envOk stIdle _ rfl,
   C4_fallback_policy.2 envOk _ _ rfl rfl rfl (by decide)⟩

/-- C5 (counterexample): the claim says any top-level shape other than the
three accepted ones is reported as a parse failure; but an object whose
"text" value is *not* a string (here the number 5) is not reported as a
failure — the code emits `recognitionFinished` with the empty transcript
(`QJsonValue::toString` coercion). -/
theorem C5_text_coercion :
    countErrors
      (handleOnlineAPIReply envOk stIdle
        (some ⟨true, "", some (Json.obj [("text", Json.num 5)])⟩)).2 = 0 ∧
    Event.finished "" ∈
      (handleOnlineAPIReply envOk stIdle
        (some ⟨true, "", some (Json.obj [("text", Json.num 5)])⟩)).2 := by
  exact ⟨by decide, by decide⟩

/-- C5 (amended): for a transport-successful remote reply: an object with a
"text" key yields `toString` of that value (the string itself for strings,
"" for non-strings); otherwise a "result" string yields that string; a
"result" array of strings yields the elements concatenated with no separator
(so "a","b","c" give "abc"); a "result" value that is neither string nor
array, an object with neither key, and a non-object or unparseable body are
reported as parse failures. -/
theorem C5_response_parsing :
    (∀ (env : Env) (st : RecState) (e : String)
       (fields : List (String × Json)) (v : Json),
       jsonLookup fields "text" = some v →
       (handleOnlineAPIReply env st (some ⟨true, e, some (Json.obj fields)⟩)).2
         = [Event.progress 100, Event.finished (jsonToString v)] ++ (cleanup st).2) ∧
    (∀ (env : Env) (st : RecState) (e : String)
       (fields : List (String × Json)) (s : String),
       jsonLookup fields "text" = none →
       jsonLookup fields "result" = some (Json.str s) →
       (handleOnlineAPIReply env st (some ⟨true, e, some (Json.obj fields)⟩)).2
         = [Event.progress 100, Event.finished s] ++ (cleanup st).2) ∧
    (∀ (env : Env) (st : RecState) (e : String)
       (fields : List (String × Json)) (ss : List String),
       jsonLookup fields "text" = none →
       jsonLookup fields "result" = some (Json.arr (ss.map Json.str)) →
       (handleOnlineAPIReply env st (some ⟨true, e, some (Json.obj fields)⟩)).2
         = [Event.progress 100, Event.finished (String.join ss)] ++ (cleanup st).2) ∧
    (∀ (env : Env) (st : RecState) (e : String)
       (fields : List (String × Json)) (v : Json),
       jsonLookup fields "text" = none →
       jsonLookup fields "result" = some v →
       (∀ s, v ≠ Json.str s) → (∀ xs, v ≠ Json.arr xs) →
       (handleOnlineAPIReply env st (some ⟨true, e, some (Json.obj fields)⟩)).2
         = [Event.error "无法解析API响应格式"] ++ (cleanup st).2) ∧
    (∀ (env : Env) (st : RecState) (e : String)
       (fields : List (String × Json)),
       jsonLookup fields "text" = none →
       jsonLookup fields "result" = none →
       (handleOnlineAPIReply env st (some ⟨true, e, some (Json.obj fields)⟩)).2
         = [Event.error "API响应中未找到识别结果"] ++ (cleanup st).2) ∧
    (∀ (env : Env) (st : RecState) (e : String) (b : Option Json),
       (∀ fields, b ≠ some (Json.obj fields)) →
       (handleOnlineAPIReply env st (some ⟨true, e, b⟩)).2
         = [Event.error "解析API响应失败"] ++ (cleanup st).2) := by
  refine ⟨?_, ?_, ?_, ?_, ?_, ?_⟩
  · intro env st e fields v h
    simp [handleOnlineAPIReply, h]
  · intro env st e fields s h1 h2
    simp [handleOnlineAPIReply, h1, h2]
  · intro env st e fields ss h1 h2
    simp [handleOnlineAPIReply, h1, h2, map_jsonToString_str]
  · intro env st e fields v h1 h2 hstr harr
    cases v with
    | str s => exact absurd rfl (hstr s)
    | arr xs => exact absurd rfl (harr xs)
    | num n => simp [handleOnlineAPIReply, h1, h2]
    | jbool b => simp [handleOnlineAPIReply, h1, h2]
    | null => simp [handleOnlineAPIReply, h1, h2]
    | obj fs => simp [handleOnlineAPIReply, h1, h2]
  · intro env st e fields h1 h2
    simp [handleOnlineAPIReply, h1, h2]
  · intro env st e b hb
    match b with
    | none => simp [handleOnlineAPIReply]
    | some (Json.obj fields) => exact absurd rfl (hb fields)
    | some (Json.str s) => simp [handleOnlineAPIReply]
    | some (Json.num n) => simp [handleOnlineAPIReply]
    | some (Json.jbool bb) => simp [handleOnlineAPIReply]
    | some Json.null => simp [handleOnlineAPIReply]
    | some (Json.arr xs) => simp [handleOnlineAPIReply]

/-- C5 (witness): the accepted shapes of the spec evaluated concretely — a
"text" string, a "result" array of strings joined with no separator, and a
"result" string. -/
theorem C5_response_parsing_witness :
    (handleOnlineAPIReply envOk stIdle
        (some ⟨true, "", some (Json.obj [("text", Json.str "hi")])⟩)).2
      = [Event.progress 100, Event.finished "hi"] ++ (cleanup stIdle).2 ∧
    (handleOnlineAPIReply envOk stIdle
        (some ⟨true, "", some (Json.obj
          [("result", Json.arr [Json.str "a", Json.str "b", Json.str "c"])])⟩)).2
      = [Event.progress 100, Event.finished "abc"] ++ (cleanup stIdle).2 ∧
    (handleOnlineAPIReply envOk stIdle
        (some ⟨true, "", some (Json.obj [("result", Json.str "xyz")])⟩)).2
      = [Event.progress 100, Event.finished "xyz"] ++ (cleanup stIdle).2 :=
  ⟨C5_response_parsing.1 envOk stIdle "" [("text", Json.str "hi")] (Json.str "hi") rfl,
   C5_response_parsing.2.2.1 envOk stIdle ""
     [("result", Json.arr [Json.str "a", Json.str "b", Json.str "c"])]
     ["a", "b", "c"] rfl rfl,
   C5_response_parsing.2.1 envOk stIdle ""
     [("result", Json.str "xyz")] "xyz" rfl rfl⟩

/-- C6 (counterexample): on the extraction-triggered path the code does not
join the segments with a single *separating* newline as the claim states —
for segments "hello", "world" it produces "hello\nworld\n" with a trailing
newline, not "hello\nworld". -/
theorem C6_newline_join_counterexample :
    joinSegmentsNewline [some "hello", some "world"] = "hello\nworld\n" ∧
    joinSegmentsNewline [some "hello", some "world"]
      ≠ specNewlineJoin ["hello", "world"] := by
  constructor
  · rfl
  · decide

/-- C6 (amended): for every ordered list of text segments, the direct
(non-extraction) local path joins the segments with exactly one separating
space (so "hello","world" give "hello world"), while the extraction-triggered
path appends a newline after *every* segment, trailing newline included; both
joins are deterministic functions of the segment list. -/
theorem C6_join_rules (ss : List String) :
    joinSegmentsSpace (ss.map some) = specSpaceJoin ss ∧
    joinSegmentsNewline (ss.map some) = specNewlineTerminatedJoin ss ∧
    joinSegmentsSpace [some "hello", some "world"] = "hello world" := by
  exact ⟨joinSpace_eq_specSpaceJoin ss, joinSegmentsNewline_eq ss, rfl⟩

/-- C6 (witness): the join rules evaluated at the spec's round-trip fixture
segments "hello", "world". -/
theorem C6_join_rules_witness :
    joinSegmentsSpace [some "hello", some "world"] = specSpaceJoin ["hello", "world"] ∧
    joinSegmentsNewline [some "hello", some "world"]
      = specNewlineTerminatedJoin ["hello", "world"] :=
  ⟨(C6_join_rules ["hello", "world"]).1, (C6_join_rules ["hello", "world"]).2.1⟩

/-- C8 (counterexample): the claim bounds the probe's wait for process start
by 2 seconds, but the code calls `waitForStarted()` with Qt's default 30 s
timeout: a probe whose process takes 10 s to start is still accepted and
reports ffmpeg available. -/
theorem C8_probe_start_counterexample :
    isFfmpegAvailable { envOk with probeStartMillis := 10000 } = true ∧
    ¬ ({ envOk with probeStartMillis := 10000 } : Env).probeStartMillis ≤ 2000 := by
  constructor
  · rfl
  · decide

/-- C8 (amended): the version probe run before any extraction waits up to
30000 ms (Qt's default `waitForStarted()` timeout) for process start and up to
2000 ms (within the claimed 3 s) for completion; it reports ffmpeg available
exactly when the process starts and completes within those bounds, exits with
code 0, and its output carries version information — so it reports unavailable
on start failure, completion timeout (probe killed), non-zero exit, or missing
version information. -/
theorem C8_probe_bounds :
    probeStartTimeoutMillis = 30000 ∧ probeFinishTimeoutMillis ≤ 3000 ∧
    ∀ env : Env, isFfmpegAvailable env = true ↔
      (env.probeStartMillis ≤ probeStartTimeoutMillis ∧
       env.probeRunMillis ≤ probeFinishTimeoutMillis ∧
       env.probeExitCode = 0 ∧ env.probeHasVersionInfo = true) := by
  refine ⟨rfl, by decide, ?_⟩
  intro env
  simp only [isFfmpegAvailable]
  split
  · next h => simp_all
  · next h =>
      split
      · next h2 => simp_all
      · next h2 =>
          simp_all [Bool.and_eq_true, beq_iff_eq]

/-- C8 (witness): the probe bounds applied to the all-good world `envOk`. -/
theorem C8_probe_bounds_witness :
    isFfmpegAvailable envOk = true :=
  (C8_probe_bounds.2.2 envOk).mpr (by constructor <;> decide)

/-- C9 (counterexample): the claim says the async worker checks the
cooperative stop flag before starting a local transcription; in the code the
worker never reads `m_shouldStop` — with the flag already set and a non-empty
buffer it still invokes `whisper_full` and emits a result. -/
theorem C9_stop_flag_counterexample :
    ({ stIdle with shouldStop := true, audioSamples := [1] } : RecState).shouldStop
      = true ∧
    Event.whisperRun ∈
      (recognizeAudioAsync envOk
        { stIdle with shouldStop := true, audioSamples := [1] }).2 ∧
    countFinished
      (recognizeAudioAsync envOk
        { stIdle with shouldStop := true, audioSamples := [1] }).2 = 1 := by
  refine ⟨rfl, ?_, by decide⟩
  decide

/-- C9 (amended): `stop()` sets the stop flag, forces the state back to Idle
(`m_isRecognizing` false, stop flag reset) and discards the partial audio
buffers; but the worker never reads `m_shouldStop` (its trace is invariant
under the flag), and its only pre-start checks are a null whisper context or
an empty buffer — so a `stop()` completed before the worker runs prevents the
native call only because cleanup emptied the buffer. -/
theorem C9_stop_behavior :
    (∀ (env : Env) (st : RecState) (b : Bool),
       (recognizeAudioAsync env { st with shouldStop := b }).2
         = (recognizeAudioAsync env st).2) ∧
    (∀ st : RecState, (stop st).1.isRecognizing = false ∧
       (stop st).1.audioSamples = [] ∧ (stop st).1.shouldStop = false) ∧
    (∀ (env : Env) (st : RecState),
       Event.whisperRun ∉ (recognizeAudioAsync env (stop st).1).2) := by
  refine ⟨?_, ?_, ?_⟩
  · intro env st b
    simp only [recognizeAudioAsync]
    split
    · rfl
    · split <;> rfl
  · intro st
    simp [stop, cleanup]
  · intro env st
    have hempty : (stop st).1.audioSamples = [] := by simp [stop, cleanup]
    simp [recognizeAudioAsync, hempty]

/-- C9 (witness): the stop behavior evaluated at the idle state and the
all-good world. -/
theorem C9_stop_behavior_witness :
    (recognizeAudioAsync envOk { stIdle with shouldStop := true }).2
      = (recognizeAudioAsync envOk stIdle).2 ∧
    (stop stIdle).1.isRecognizing = false ∧
    Event.whisperRun ∉ (recognizeAudioAsync envOk (stop stIdle).1).2 :=
  ⟨C9_stop_behavior.1 envOk stIdle true, (C9_stop_behavior.2.1 stIdle).1,
   C9_stop_behavior.2.2 envOk stIdle⟩

/-- C10 (confirmed): every `recognizeFromVideo` call with a null whisper
context returns false, emits exactly one error, leaves the state untouched,
attempts no audio extraction and invokes no remote backend — regardless of
the remote endpoint configuration and backend preference. -/
theorem C10_null_ctx_rejected (env : Env) (st : RecState) (v out : String)
    (hctx : st.whisperCtx = false) :
    (recognizeFromVideo env st v out).1 = st ∧
    (recognizeFromVideo env st v out).2.2 = false ∧
    countErrors (recognizeFromVideo env st v out).2.1 = 1 ∧
    Event.extractRun ∉ (recognizeFromVideo env st v out).2.1 ∧
    countRemotePosts (recognizeFromVideo env st v out).2.1 = 0 := by
  simp only [recognizeFromVideo]
  split
  · simp [countErrors, isErrorEvent, countRemotePosts, isRemotePostEvent]
  · split
    · simp [countErrors, isErrorEvent, countRemotePosts, isRemotePostEvent]
    · split
      · simp [countErrors, isErrorEvent, countRemotePosts, isRemotePostEvent]
      · split
        · simp [countErrors, isErrorEvent, countRemotePosts, isRemotePostEvent]
        · next h => simp [hctx] at h

/-- C1 (counterexample): with a recognition in flight (`m_isRecognizing`
true, a non-empty sample buffer), `recognizeFromVideo` is not rejected with
the concurrency error — it proceeds (here extraction fails to start) and then
calls `cleanup`, clearing the in-flight request's sample buffer and resetting
the in-flight flag. -/
theorem C1_video_entry_counterexample :
    ({ stIdle with isRecognizing := true, audioSamples := [7] } : RecState).isRecognizing
      = true ∧
    Event.error "Already recognizing audio." ∉
      (recognizeFromVideo { envOk with extractStartOk := false }
        { stIdle with isRecognizing := true, audioSamples := [7] } "v.mp4" "").2.1 ∧
    (recognizeFromVideo { envOk with extractStartOk := false }
        { stIdle with isRecognizing := true, audioSamples := [7] } "v.mp4" "").1.audioSamples
      = [] ∧
    (recognizeFromVideo { envOk with extractStartOk := false }
        { stIdle with isRecognizing := true, audioSamples := [7] } "v.mp4" "").1.isRecognizing
      = false := by
  refine ⟨rfl, ?_, rfl, rfl⟩
  decide

/-- C1 (amended): `recognizeFile` rejects a request while one is in flight
with the concurrency error "Already recognizing audio.", returns false, and
leaves the whole state (buffers, temp files, disk) unchanged with no cleanup;
`recognizeFromVideo`, however, performs no in-flight check: with a recognition
in flight it still attempts extraction (spawning the decoder subprocess), and
a concurrency rejection can only come from its nested `recognizeFile` call —
on extraction failure it even runs `cleanup` on the in-flight request. -/
theorem C1_single_flight :
    (∀ (env : Env) (st : RecState) (p : String), st.isRecognizing = true →
       recognizeFile env st p
         = (st, [Event.error "Already recognizing audio."], false)) ∧
    (∀ (env : Env) (st : RecState) (v : String), st.isRecognizing = true →
       st.whisperCtx = true → v ≠ "" → st.disk.contains v = true →
       env.fileReadable v = true → isFfmpegAvailable env = true →
       env.outputDirExists = true → env.outputDirReadable = true →
       Event.extractRun ∈ (recognizeFromVideo env st v "").2.1) := by
  constructor
  · intro env st p h
    simp [recognizeFile, h]
  · intro env st v _hrec hctx hv hd hr hff hde hdr
    simp only [recognizeFromVideo, hd, hctx, hff, Bool.not_true,
      Bool.false_eq_true, if_false]
    rw [if_neg (by simpa using hv)]
    have hmem := extractAudioFromVideo_spawns env
      { st with tempAudioFile := tempVideoWavPath v } v (tempVideoWavPath v)
      (by simpa using hd) hr hff hde hdr
    rw [hctx] at hmem
    simp only [beq_self_eq_true, if_true]
    split
    · exact List.mem_append_left _ hmem
    · exact List.mem_append_left _ hmem

/-- C1 (witness): the rejection of `recognizeFile` and the extraction attempt
of `recognizeFromVideo`, both while a recognition is in flight. -/
theorem C1_single_flight_witness :
    recognizeFile envOk { stIdle with isRecognizing := true } "a.wav"
      = ({ stIdle with isRecognizing := true },
         [Event.error "Already recognizing audio."], false) ∧
    Event.extractRun ∈
      (recognizeFromVideo envOk { stIdle with isRecognizing := true } "v.mp4" "").2.1 :=
  ⟨C1_single_flight.1 envOk _ "a.wav" rfl,
   C1_single_flight.2 envOk _ "v.mp4" rfl rfl (by decide) (by decide) rfl
     (by decide) rfl rfl⟩

/-- C2 (code bug): a fully successful video recognition from the Idle state
emits `recognitionFinished` twice — once inline in `extractAudioFromVideo`
(newline-joined segments), and once more from the async worker spawned by the
subsequent `recognizeFile` call (space-joined segments) — where the spec
requires exactly one terminal event per request. -/
theorem C2_video_double_emission :
    countFinished (runVideoRecognition envOk stIdle "v.mp4" "").2 = 2 ∧
    countErrors (runVideoRecognition envOk stIdle "v.mp4" "").2 = 0 ∧
    countTerminal (runVideoRecognition envOk stIdle "v.mp4" "").2 = 2 ∧
    Event.finished "hello\nworld\n" ∈ (runVideoRecognition envOk stIdle "v.mp4" "").2 ∧
    Event.finished "hello world" ∈ (runVideoRecognition envOk stIdle "v.mp4" "").2 := by
  refine ⟨by decide, by decide, by decide, ?_, ?_⟩ <;> decide

/-- C7 (counterexample): the successful local video recognition run leaves the
orchestrator-created temporary extracted-audio file on disk at its terminal
(success) event — no deletion happens on this exit path. -/
theorem C7_temp_survives_success :
    tempVideoWavPath "v.mp4" ∈ (runVideoRecognition envOk stIdle "v.mp4" "").1.disk ∧
    (runVideoRecognition envOk stIdle "v.mp4" "").1.tempAudioFile
      = tempVideoWavPath "v.mp4" ∧
    countFinished (runVideoRecognition envOk stIdle "v.mp4" "").2 ≥ 1 := by
  refine ⟨?_, rfl, by decide⟩
  decide

/-- C7 (amended): temporary files are deleted on the exit paths that invoke
`cleanup()` — in particular `stop()` and the extraction-failure path — and
`cleanup` removes both the recorded temp file and `m_currentAudioFile` from
disk; but the local asynchronous success path never deletes the temp file
(see the counterexample), and `cleanup` deletes `m_currentAudioFile` even
when it is the caller-supplied audio file. -/
theorem C7_cleanup_deletes_files :
    (∀ st : RecState, st.tempAudioFile ≠ "" →
       st.tempAudioFile ∉ (cleanup st).1.disk) ∧
    (∀ st : RecState, st.tempAudioFile ≠ "" →
       st.tempAudioFile ∉ (stop st).1.disk) ∧
    (∀ st : RecState, st.currentAudioFile ≠ "" →
       st.currentAudioFile ∉ (cleanup st).1.disk) := by
  refine ⟨fun st h => (cleanup_removes_files st).1 h, ?_,
    fun st h => (cleanup_removes_files st).2 h⟩
  intro st h
  simp only [stop]
  split
  · exact (cleanup_removes_files _).1 h
  · exact (cleanup_removes_files st).1 h

/-- C7 (witness): cleanup and stop delete a recorded temp file and a recorded
current audio file from disk. -/
theorem C7_cleanup_deletes_files_witness :
    "/tmp/t.wav" ∉
      (cleanup { stIdle with tempAudioFile := "/tmp/t.wav", disk := ["/tmp/t.wav"] }).1.disk ∧
    "/tmp/t.wav" ∉
      (stop { stIdle with tempAudioFile := "/tmp/t.wav", disk := ["/tmp/t.wav"] }).1.disk ∧
    "a.wav" ∉
      (cleanup { stIdle with currentAudioFile := "a.wav", disk := ["a.wav"] }).1.disk :=
  ⟨C7_cleanup_deletes_files.1 _ (by decide),
   C7_cleanup_deletes_files.2.1 _ (by decide),
   C7_cleanup_deletes_files.2.2 _ (by decide)⟩

/-- C10 (witness): with the model not loaded, the online API preferred and an
endpoint configured, the video entry point still rejects before extraction. -/
theorem C10_null_ctx_rejected_witness :
    (recognizeFromVideo envOk
        { stIdle with whisperCtx := false, preferOnlineAPI := true } "v.mp4" "").2.2
      = false ∧
    Event.extractRun ∉
      (recognizeFromVideo envOk
        { stIdle with whisperCtx := false, preferOnlineAPI := true } "v.mp4" "").2.1 :=
  ⟨(C10_null_ctx_rejected envOk _ "v.mp4" "" rfl).2.1,
   (C10_null_ctx_rejected envOk _ "v.mp4" "" rfl).2.2.2.1⟩

end QEnPlayer
